import Mathlib

/-!
Shallow embedding of the event-coordination core of `systemctl-mqtt`
(repository `goshansp/systemctl-mqtt`).

Sources embedded directly:
  * `src/systemctl_mqtt/_dbus/login_manager.py` — D-Bus message builders
    (`LoginManager.ScheduleShutdown`, `ListInhibitors`, `Inhibit`), the
    diagnostics helper `_log_shutdown_inhibitors` and `schedule_shutdown`.

The package module `systemctl_mqtt/__init__.py` (the message dispatcher,
the shutdown-inhibitor lock wrapper `_Settings`, the MQTT runtime `_run`
and the topic-suffix/action registry) is not present under `src/`; only
its tests are.  Those parts are modelled from the specification, with the
repository's own tests (`src/tests/test_mqtt.py`) pinning down details the
specification leaves open; each such definition carries a doc comment
saying so.

Conventions: Python byte strings are `List Nat` (one byte per element),
Python exceptions are explicit `Except`/`Option` results, side effects
(log records, D-Bus calls, MQTT subscribe calls) are reified as event
traces returned by the embedded functions, and binary64 float arithmetic
is embedded exactly: each operation's correctly-rounded result is the
rational produced by `fl` (round to nearest, 53-bit significand, ties to
even).
-/

namespace SystemctlMqtt

/-- Python `logging` levels used by the program (DEBUG=10, INFO=20,
WARNING=30, ERROR=40). -/
inductive LogLevel
  | debug
  | info
  | warning
  | error
deriving DecidableEq, Repr

/-- Numeric value of a `logging` level, as in CPython's `logging` module. -/
def LogLevel.toNum : LogLevel → Int
  | .debug => 10
  | .info => 20
  | .warning => 30
  | .error => 40

/-- Hexadecimal digit character (lower case), used by the byte-string repr. -/
def hexDigitChar (n : Nat) : Char :=
  if n < 10 then Char.ofNat (48 + n) else Char.ofNat (87 + n)

/-- Python `repr` of a single byte inside a `bytes` literal: printable
ASCII stays itself, tab/newline/carriage-return, the single quote and the
backslash are escaped, everything else becomes a `\xNN` escape. -/
def pyByteRepr (b : Nat) : String :=
  if b = 9 then "\\t"
  else if b = 10 then "\\n"
  else if b = 13 then "\\r"
  else if b = 39 then "\\'"
  else if b = 92 then "\\\\"
  else if 32 ≤ b ∧ b ≤ 126 then String.singleton (Char.ofNat b)
  else "\\x" ++ String.singleton (hexDigitChar (b / 16)) ++ String.singleton (hexDigitChar (b % 16))

/-- Python `repr` of a `bytes` value, e.g. `b''` or `b'junk'` (the variant
quoting Python applies when the payload itself contains a single quote is
not modelled; no claim uses such a payload). -/
def pyBytesRepr (payload : List Nat) : String :=
  "b'" ++ String.join (payload.map pyByteRepr) ++ "'"

/-- An inbound MQTT message as seen by a message callback: topic, payload
bytes and the broker's retained flag (`MQTTMessage.topic`, `.payload`,
`.retain` in paho-mqtt). -/
structure InboundMessage where
  topic : String
  payload : List Nat
  retained : Bool
deriving DecidableEq, Repr

/-- Modelled from the spec: an entry of the topic-suffix/action registry
`_MQTT_TOPIC_SUFFIX_ACTION_MAPPING` of module `systemctl_mqtt` (the module
is absent from `src/`).  `name` is the action name appearing in log
records; `actionRepr` stands for Python's `repr` of the bound action
callable, which the execution/completion log lines interpolate. -/
structure ActionDescriptor where
  name : String
  actionRepr : String
deriving DecidableEq, Repr

/-- One observable effect of a message callback: a log record, or an
invocation of the descriptor's action. -/
inductive DispatchEvent
  | logEvt (level : LogLevel) (message : String)
  | invoke (actionName : String)
deriving DecidableEq, Repr

/-- Modelled from the spec: `mqtt_message_callback` of an action
descriptor (module `systemctl_mqtt`, absent from `src/`).  Per spec
section 4.4 and the tests `test_mqtt_message_callback_poweroff` /
`test_mqtt_message_callback_poweroff_retained`: first a debug receipt log
`received topic=<topic> payload=<payload repr>`; if the message is
retained, an info `ignoring retained message` record and nothing else;
otherwise a debug execution log, exactly one invocation of the action,
and a debug completion log.  The spec's action-failure branch (an action
error caught and logged) is not modelled: no claim quantifies over
failing actions. -/
def mqtt_message_callback (d : ActionDescriptor) (msg : InboundMessage) :
    List DispatchEvent :=
  DispatchEvent.logEvt LogLevel.debug
      ("received topic=" ++ msg.topic ++ " payload=" ++ pyBytesRepr msg.payload) ::
  (if msg.retained then
    [DispatchEvent.logEvt LogLevel.info "ignoring retained message"]
  else
    [DispatchEvent.logEvt LogLevel.debug
        ("executing action " ++ d.name ++ " (" ++ d.actionRepr ++ ")"),
     DispatchEvent.invoke d.name,
     DispatchEvent.logEvt LogLevel.debug
        ("completed action " ++ d.name ++ " (" ++ d.actionRepr ++ ")")])

/-- Number of action invocations in a dispatch trace. -/
def invokeCount (evs : List DispatchEvent) : Nat :=
  (evs.filter fun e => match e with
    | DispatchEvent.invoke _ => true
    | _ => false).length

/-- Log records (level/message pairs) of a dispatch trace, in order. -/
def dispatchLogRecords (evs : List DispatchEvent) : List (LogLevel × String) :=
  evs.filterMap fun e => match e with
    | DispatchEvent.logEvt lvl m => some (lvl, m)
    | _ => none

/-- Modelled from the spec: the registry
`_MQTT_TOPIC_SUFFIX_ACTION_MAPPING` (module `systemctl_mqtt`, absent from
`src/`).  The spec's section 4.1 lists poweroff, reboot, suspend and
lock-all-sessions as minimum entries, but the repository's own test
`test__run` asserts that on connect `subscribe` is called exactly once,
with `<topic pfx>/poweroff` only, and the dispatcher subscribes once per
registry entry — so the mapping of this code base holds the single key
`poweroff`. -/
def MQTT_TOPIC_SUFFIX_ACTION_MAPPING : List (String × ActionDescriptor) :=
  [("poweroff", { name := "poweroff", actionRepr := "<function poweroff>" })]

/-- State of the shutdown-inhibitor lock wrapper: either no lock handle is
held, or one handle (a file-descriptor-like resource, modelled as its
number) is held. -/
inductive LockState
  | Free
  | Held (fd : Nat)
deriving DecidableEq, Repr

/-- One observable effect of the lock wrapper on the host: an `Inhibit`
request to the login manager (which yields a new handle), or a close of a
previously obtained handle. -/
inductive LockEvent
  | inhibitCall (what who why mode : String)
  | closeFd (fd : Nat)
deriving DecidableEq, Repr

/-- Modelled from the spec: `_Settings.acquire_shutdown_lock` (module
`systemctl_mqtt`, absent from `src/`).  Per spec section 4.2: valid from
`Free`, it requests a shutdown-delay inhibitor from the login manager —
with the argument tuple `("shutdown", "systemctl-mqtt", "Report shutdown
via MQTT", "delay")` asserted by `test_shutdown_lock` — and stores the
returned handle; calling it while already `Held` is a no-op returning
success.  `newFd` is the handle the host would return for a fresh
request. -/
def acquire_shutdown_lock (st : LockState) (newFd : Nat) :
    LockState × List LockEvent :=
  match st with
  | LockState.Free =>
      (LockState.Held newFd,
       [LockEvent.inhibitCall "shutdown" "systemctl-mqtt" "Report shutdown via MQTT" "delay"])
  | LockState.Held fd => (LockState.Held fd, [])

/-- Modelled from the spec: `_Settings.release_shutdown_lock` (module
`systemctl_mqtt`, absent from `src/`).  Per spec section 4.2: from `Held`
it closes the underlying handle exactly once (`os.close` on the taken
file descriptor, per `test_shutdown_lock`) and transitions to `Free`;
calling it while already `Free` is a no-op returning success. -/
def release_shutdown_lock (st : LockState) : LockState × List LockEvent :=
  match st with
  | LockState.Free => (LockState.Free, [])
  | LockState.Held fd => (LockState.Free, [LockEvent.closeFd fd])

/-- Number of handles held in a lock state. -/
def heldCount : LockState → Nat
  | LockState.Free => 0
  | LockState.Held _ => 1

/-- Number of `Inhibit` requests in a lock trace. -/
def inhibitCallCount (evs : List LockEvent) : Nat :=
  (evs.filter fun e => match e with
    | LockEvent.inhibitCall _ _ _ _ => true
    | _ => false).length

/-- Number of handle closes in a lock trace. -/
def closeCount (evs : List LockEvent) : Nat :=
  (evs.filter fun e => match e with
    | LockEvent.closeFd _ => true
    | _ => false).length

/-- One observable effect of the connect callback: a log record, an MQTT
`subscribe` request, the registration of a per-topic message callback, or
the `acquire_shutdown_lock` call. -/
inductive ConnectEvent
  | logEvt (level : LogLevel) (message : String)
  | subscribeTopic (topic : String)
  | registerCallback (topic : String) (actionName : String)
  | acquireLock
deriving DecidableEq, Repr

/-- Modelled from the spec: the connect callback `_mqtt_on_connect`
(module `systemctl_mqtt`, absent from `src/`).  Per spec section 4.4 and
the connect-callback part of `test__run`: a debug `connected to MQTT
broker <host>:<port>` record; then, for each registry entry, an info
`subscribing to <topic>` record, the `subscribe` request, and a debug
`registered MQTT callback ...` record; finally — after all subscribe
requests, the order the spec fixes — the single `acquire_shutdown_lock`
call. -/
def on_connect (host : String) (port : Nat) (topicPfx : String) :
    List ConnectEvent :=
  ConnectEvent.logEvt LogLevel.debug
      ("connected to MQTT broker " ++ host ++ ":" ++ toString port) ::
  (MQTT_TOPIC_SUFFIX_ACTION_MAPPING.flatMap fun p =>
    [ConnectEvent.logEvt LogLevel.info ("subscribing to " ++ (topicPfx ++ "/" ++ p.1)),
     ConnectEvent.subscribeTopic (topicPfx ++ "/" ++ p.1),
     ConnectEvent.logEvt LogLevel.debug
       ("registered MQTT callback for topic " ++ (topicPfx ++ "/" ++ p.1)
         ++ " triggering " ++ p.2.actionRepr)]) ++
  [ConnectEvent.acquireLock]

/-- Topics of the `subscribe` requests in a connect trace, in order. -/
def subscribedTopics (evs : List ConnectEvent) : List String :=
  evs.filterMap fun e => match e with
    | ConnectEvent.subscribeTopic t => some t
    | _ => none

/-- Keeps only the `subscribe` requests and the lock acquisition of a
connect trace, so their relative order can be stated. -/
def subscribeOrAcquire (evs : List ConnectEvent) : List ConnectEvent :=
  evs.filter fun e => match e with
    | ConnectEvent.subscribeTopic _ => true
    | ConnectEvent.acquireLock => true
    | _ => false

/-- A Python exception surfaced by an embedded function. -/
inductive PyErr
  | valueError (msg : String)
  | assertionError (msg : String)
deriving DecidableEq, Repr

/-- One observable effect of bridge startup: a log record, the TCP/TLS
connection to the broker (`socket.create_connection` under paho's
`connect`), or the start of one of the two loops. -/
inductive RunEvent
  | logEvt (level : LogLevel) (message : String)
  | connectBroker (host : String) (port : Nat)
  | startNetworkLoop
  | startSignalLoop
deriving DecidableEq, Repr

/-- Number of broker-connection attempts in a startup trace. -/
def connectCount (evs : List RunEvent) : Nat :=
  (evs.filter fun e => match e with
    | RunEvent.connectBroker _ _ => true
    | _ => false).length

/-- Modelled from the spec: `systemctl_mqtt._run` (module absent from
`src/`).  Per spec sections 4.5 and 8.7 and the tests `test__run` /
`test__run_authentication_missing_username`: credential validation comes
first — a password without a username raises `ValueError` before any
network activity; otherwise the runtime logs `connecting to MQTT broker
<host>:<port>` at info level, connects, and starts the network and signal
loops.  The result pairs the emitted trace with the exception, if any. -/
def run (host : String) (port : Nat) (username pw : Option String)
    (topicPfx : String) : List RunEvent × Option PyErr :=
  match username, pw with
  | none, some _ => ([], some (PyErr.valueError "Missing MQTT username"))
  | _, _ =>
      ([RunEvent.logEvt LogLevel.info
          ("connecting to MQTT broker " ++ host ++ ":" ++ toString port),
        RunEvent.connectBroker host port,
        RunEvent.startNetworkLoop,
        RunEvent.startSignalLoop], none)

/-- A `datetime.datetime` value.  CPython's `datetime` has microsecond
resolution, so the value is its (integer) number of microseconds since
the Unix epoch. -/
structure PyDatetime where
  usecSinceEpoch : Int
deriving DecidableEq, Repr

/-- `datetime.timedelta`, also with microsecond resolution. -/
structure PyTimedelta where
  usec : Int
deriving DecidableEq, Repr

/-- Round `q` to an integer multiple of `2 ^ ulpExp`, ties to the even
multiple — IEEE 754 round-to-nearest-even at a fixed unit in the last
place. -/
def roundNearestEven (q : Rat) (ulpExp : Int) : Rat :=
  let u : Rat := 2 ^ ulpExp
  let x : Rat := q / u
  let n : Int := Int.floor x
  let frac : Rat := x - (n : Rat)
  ((if frac < 1 / 2 then n
    else if 1 / 2 < frac then n + 1
    else if n % 2 = 0 then n else n + 1 : Int) : Rat) * u

/-- The binary64 (IEEE 754 double) value nearest `q`, as an exact
rational: round to nearest with a 53-bit significand, ties to even —
exactly the value every correctly-rounded CPython float operation
returns.  Overflow and subnormals are not modelled; every quantity this
development evaluates is far inside the normal range. -/
def fl (q : Rat) : Rat :=
  if q = 0 then 0
  else roundNearestEven q (Int.log 2 |q| - 52)

/-- `datetime.datetime.timestamp()`: seconds since the epoch as a
binary64 float — the correctly-rounded division of the exact microsecond
count by `10^6` (CPython divides the integer total of microseconds by
`10**6` in float arithmetic). -/
def PyDatetime.timestamp (t : PyDatetime) : Rat :=
  fl ((t.usecSinceEpoch : Rat) / 1000000)

/-- `datetime.datetime + datetime.timedelta`. -/
def PyDatetime.add (t : PyDatetime) (d : PyTimedelta) : PyDatetime :=
  ⟨t.usecSinceEpoch + d.usec⟩

/-- Python `int()` on a rational number: truncation toward zero. -/
def pyInt (q : Rat) : Int :=
  if q < 0 then Int.ceil q else Int.floor q

/-- Stand-in for `time.strftime("%Y-%m-%d %H:%M:%S")` in the scheduling
info log: the rendered wall-clock text is abstracted as the raw
microsecond count, since no claim refers to the rendered time string. -/
def strftimeStandIn (t : PyDatetime) : String :=
  toString t.usecSinceEpoch

/-- A value in a D-Bus method-call body (the bodies built by
`login_manager.py` hold strings, integers and booleans). -/
inductive PyVal
  | str (s : String)
  | int (i : Int)
  | bool (b : Bool)
deriving DecidableEq, Repr

/-- A D-Bus method call as built by `jeepney.new_method_call`: method
name, signature string and body tuple. -/
structure MethodCall where
  method : String
  signature : String
  body : List PyVal
deriving DecidableEq, Repr

/-- `LoginManager.ListInhibitors` (login_manager.py line 59): a method
call with no arguments. -/
def LoginManager_ListInhibitors : MethodCall :=
  { method := "ListInhibitors", signature := "", body := [] }

/-- `LoginManager.ScheduleShutdown` (login_manager.py lines 68-76): a
method call with signature `st` and body
`(action, int(time.timestamp() * 1e6))`, where `time.timestamp()` is a
binary64 float, the multiplication by `1e6` (exactly representable) is a
correctly-rounded binary64 product, and `int()` truncates toward zero. -/
def LoginManager_ScheduleShutdown (action : String) (time : PyDatetime) :
    MethodCall :=
  { method := "ScheduleShutdown",
    signature := "st",
    body := [PyVal.str action, PyVal.int (pyInt (fl (time.timestamp * 1000000)))] }

/-- `LoginManager.Inhibit` (login_manager.py lines 97-105): a method call
with signature `ssss` and body `(what, who, why, mode)`. -/
def LoginManager_Inhibit (what who why mode : String) : MethodCall :=
  { method := "Inhibit",
    signature := "ssss",
    body := [PyVal.str what, PyVal.str who, PyVal.str why, PyVal.str mode] }

/-- `jeepney.wrappers.DBusErrorResponse`: the error name and the data
tuple (a tuple of strings for the errors this program handles). -/
structure DBusErrorResponse where
  name : String
  data : List String
deriving DecidableEq, Repr

/-- Rendering of a `DBusErrorResponse` when interpolated with `%s`, e.g.
`[org.freedesktop.DBus.Error.AccessDenied] ('...',)`; the exact text is
outside every claim, only that it is appended after the action name
matters. -/
def strOfExc (e : DBusErrorResponse) : String :=
  "[" ++ e.name ++ "] (" ++
    String.intercalate ", " (e.data.map fun s => "'" ++ s ++ "'") ++ ")"

/-- One row of the `ListInhibitors` reply: `(what, who, why, mode, uid,
pid)`. -/
structure InhibitorEntry where
  what : String
  who : String
  why : String
  mode : String
  uid : Nat
  pid : Nat
deriving DecidableEq, Repr

/-- Whether `n` occurs as a contiguous run at the head of `h`. -/
def listLeads : List Char → List Char → Bool
  | [], _ => true
  | _ :: _, [] => false
  | a :: as, b :: bs => a = b && listLeads as bs

/-- Whether `n` occurs as a contiguous run anywhere in `h` (Python's
`n in h` on strings). -/
def listHasSub (n : List Char) : List Char → Bool
  | [] => listLeads n []
  | c :: t => listLeads n (c :: t) || listHasSub n t

/-- Python `"shutdown" in what`. -/
def mentionsShutdown (what : String) : Bool :=
  listHasSub "shutdown".toList what.toList

/-- One observable effect of `schedule_shutdown` and its diagnostics
helper: a log record or an issued D-Bus method call. -/
inductive SchedEvent
  | logEvt (level : LogLevel) (message : String)
  | dbusCall (m : MethodCall)
deriving DecidableEq, Repr

/-- `_log_shutdown_inhibitors` (login_manager.py lines 122-144).  If the
logger's effective level is above DEBUG (10) it returns at once without
calling the host.  Otherwise it issues `ListInhibitors`; on a
`DBusErrorResponse` — `inhibResp` is the host's reply, passed in as a
parameter — the `except` clause logs a warning and returns; on success it
logs one debug record per inhibitor whose `what` contains `shutdown`, and
a final debug record when none did. -/
def log_shutdown_inhibitors (effLevel : Int)
    (inhibResp : Except DBusErrorResponse (List InhibitorEntry)) :
    List SchedEvent :=
  if 10 < effLevel then []
  else
    SchedEvent.dbusCall LoginManager_ListInhibitors ::
    match inhibResp with
    | Except.error exc =>
        [SchedEvent.logEvt LogLevel.warning
          ("failed to fetch shutdown inhibitors: " ++ strOfExc exc)]
    | Except.ok inhibitors =>
        (inhibitors.filterMap fun i =>
          if mentionsShutdown i.what then
            some (SchedEvent.logEvt LogLevel.debug
              ("detected shutdown inhibitor " ++ i.who ++ " (pid=" ++ toString i.pid
                ++ ", uid=" ++ toString i.uid ++ ", mode=" ++ i.mode ++ "): " ++ i.why))
          else none) ++
        (if inhibitors.any fun i => mentionsShutdown i.what then []
         else [SchedEvent.logEvt LogLevel.debug "no shutdown inhibitor locks found"])

/-- The error record `schedule_shutdown`'s `except` clause emits for a
`DBusErrorResponse`: the interactive-authorization-required error with
data `('Interactive authentication required.',)` gets the dedicated
unauthorized message, every other D-Bus error the generic one; both name
the action. -/
def schedule_error_log (action : String) (exc : DBusErrorResponse) : SchedEvent :=
  if exc.name = "org.freedesktop.DBus.Error.InteractiveAuthorizationRequired"
      ∧ exc.data = ["Interactive authentication required."] then
    SchedEvent.logEvt LogLevel.error
      ("failed to schedule " ++ action ++ ": unauthorized; missing polkit authorization rules?")
  else
    SchedEvent.logEvt LogLevel.error
      ("failed to schedule " ++ action ++ (": " ++ strOfExc exc))

/-- `schedule_shutdown` (login_manager.py lines 147-180).  The `assert
action in ["poweroff", "reboot"]` surfaces as an `AssertionError` result;
otherwise the target time is `now + delay`, an info log is emitted, the
`ScheduleShutdown` call is issued once, a `DBusErrorResponse` from it
(`callResp`, the host's reply) is caught and turned into the
`schedule_error_log` record; finally the inhibitor diagnostics run.  No
path re-issues the call or re-raises. -/
def schedule_shutdown (action : String) (now : PyDatetime) (delay : PyTimedelta)
    (callResp : Except DBusErrorResponse Unit)
    (inhibResp : Except DBusErrorResponse (List InhibitorEntry))
    (effLevel : Int) : Except PyErr (List SchedEvent) :=
  if action = "poweroff" ∨ action = "reboot" then
    Except.ok
      (SchedEvent.logEvt LogLevel.info
          ("scheduling " ++ action ++ " for " ++ strftimeStandIn (now.add delay)) ::
       SchedEvent.dbusCall (LoginManager_ScheduleShutdown action (now.add delay)) ::
       (match callResp with
        | Except.ok _ => []
        | Except.error exc => [schedule_error_log action exc]) ++
       log_shutdown_inhibitors effLevel inhibResp)
  else Except.error (PyErr.assertionError action)

/-- Whether an event is an issued `ScheduleShutdown` D-Bus call. -/
def isScheduleCall : SchedEvent → Bool
  | SchedEvent.dbusCall m => m.method == "ScheduleShutdown"
  | _ => false

/-- Number of `ScheduleShutdown` D-Bus calls in a trace. -/
def scheduleCallCount (evs : List SchedEvent) : Nat :=
  evs.countP isScheduleCall

/-- The poweroff descriptor of the registry, used by concrete witnesses. -/
def poweroffDescriptor : ActionDescriptor :=
  { name := "poweroff", actionRepr := "<function poweroff>" }

/-- C1: for every inbound MQTT message whose retained flag is true, the
message callback never invokes the mapped action, regardless of topic and
payload; its final output is the info-level `ignoring retained message`
record, after which it stops. -/
theorem retained_message_never_triggers_action (d : ActionDescriptor)
    (msg : InboundMessage) (h : msg.retained = true) :
    invokeCount (mqtt_message_callback d msg) = 0 ∧
    (mqtt_message_callback d msg).getLast? =
      some (DispatchEvent.logEvt LogLevel.info "ignoring retained message") := by
  cases msg with
  | mk t p r =>
    cases r
    · simp at h
    · exact ⟨rfl, rfl⟩

/-- Witness for C1 at a concrete retained poweroff message. -/
theorem retained_message_never_triggers_action_witness :
    ({ topic := "system/command/poweroff", payload := [], retained := true } :
        InboundMessage).retained = true ∧
    (invokeCount (mqtt_message_callback poweroffDescriptor
        { topic := "system/command/poweroff", payload := [], retained := true }) = 0 ∧
      (mqtt_message_callback poweroffDescriptor
        { topic := "system/command/poweroff", payload := [], retained := true }).getLast? =
        some (DispatchEvent.logEvt LogLevel.info "ignoring retained message")) :=
  ⟨rfl, retained_message_never_triggers_action poweroffDescriptor
      { topic := "system/command/poweroff", payload := [], retained := true } rfl⟩

/-- C2: for every registered action topic and every non-retained message
on `<topic pfx>/<suffix>` (any payload, including empty), the callback
invokes exactly the corresponding action exactly once and emits, in
order, the debug receipt log, the execution-start log, the invocation and
the completion log. -/
theorem registered_topic_dispatch (suffix : String) (d : ActionDescriptor)
    (topicPfx : String) (payload : List Nat)
    (h : (suffix, d) ∈ MQTT_TOPIC_SUFFIX_ACTION_MAPPING) :
    mqtt_message_callback d
        { topic := topicPfx ++ "/" ++ suffix, payload := payload, retained := false } =
      [DispatchEvent.logEvt LogLevel.debug
          ("received topic=" ++ (topicPfx ++ "/" ++ suffix) ++ " payload=" ++ pyBytesRepr payload),
       DispatchEvent.logEvt LogLevel.debug
          ("executing action " ++ d.name ++ " (" ++ d.actionRepr ++ ")"),
       DispatchEvent.invoke d.name,
       DispatchEvent.logEvt LogLevel.debug
          ("completed action " ++ d.name ++ " (" ++ d.actionRepr ++ ")")] ∧
    invokeCount (mqtt_message_callback d
        { topic := topicPfx ++ "/" ++ suffix, payload := payload, retained := false }) = 1 :=
  ⟨rfl, rfl⟩

/-- Witness for C2: the poweroff entry, topic prefix `system/command` and
the empty payload (whose repr is `b''`). -/
theorem registered_topic_dispatch_witness :
    ("poweroff", poweroffDescriptor) ∈ MQTT_TOPIC_SUFFIX_ACTION_MAPPING ∧
    (mqtt_message_callback poweroffDescriptor
        { topic := "system/command" ++ "/" ++ "poweroff", payload := [], retained := false } =
      [DispatchEvent.logEvt LogLevel.debug
          ("received topic=" ++ ("system/command" ++ "/" ++ "poweroff") ++ " payload=" ++ pyBytesRepr []),
       DispatchEvent.logEvt LogLevel.debug
          ("executing action " ++ poweroffDescriptor.name ++ " (" ++ poweroffDescriptor.actionRepr ++ ")"),
       DispatchEvent.invoke poweroffDescriptor.name,
       DispatchEvent.logEvt LogLevel.debug
          ("completed action " ++ poweroffDescriptor.name ++ " (" ++ poweroffDescriptor.actionRepr ++ ")")] ∧
     invokeCount (mqtt_message_callback poweroffDescriptor
        { topic := "system/command" ++ "/" ++ "poweroff", payload := [], retained := false }) = 1) :=
  ⟨by decide, registered_topic_dispatch "poweroff" poweroffDescriptor "system/command" []
      (by decide)⟩

/-- C3: the lock wrapper's operations are idempotent — two acquisitions
without an intervening release leave exactly one handle held, the second
acquisition being a no-op; two releases in a row close the underlying
handle at most once, the second release being a no-op ending in `Free`;
releasing from `Free` is a no-op returning success. -/
theorem inhibitor_lock_idempotent (newFd1 newFd2 : Nat) (s : LockState) :
    (acquire_shutdown_lock (acquire_shutdown_lock LockState.Free newFd1).1 newFd2).1 =
      LockState.Held newFd1 ∧
    inhibitCallCount ((acquire_shutdown_lock LockState.Free newFd1).2 ++
        (acquire_shutdown_lock (acquire_shutdown_lock LockState.Free newFd1).1 newFd2).2) = 1 ∧
    (acquire_shutdown_lock (acquire_shutdown_lock LockState.Free newFd1).1 newFd2).2 = [] ∧
    closeCount ((release_shutdown_lock s).2 ++
        (release_shutdown_lock (release_shutdown_lock s).1).2) ≤ 1 ∧
    (release_shutdown_lock (release_shutdown_lock s).1).2 = [] ∧
    (release_shutdown_lock (release_shutdown_lock s).1).1 = LockState.Free ∧
    release_shutdown_lock LockState.Free = (LockState.Free, []) := by
  refine ⟨rfl, rfl, rfl, ?_, ?_, ?_, rfl⟩ <;> cases s <;>
    simp [release_shutdown_lock, closeCount]

/-- C4: every configuration with a password and no username fails startup
with the `ValueError` for the missing username, and the connection
primitive is called zero times. -/
theorem password_without_username_fails (host : String) (port : Nat)
    (pw : String) (topicPfx : String) :
    (run host port none (some pw) topicPfx).2 =
      some (PyErr.valueError "Missing MQTT username") ∧
    connectCount (run host port none (some pw) topicPfx).1 = 0 :=
  ⟨rfl, rfl⟩

/-- Number of lock acquisitions in a connect trace. -/
def acquireCount (evs : List ConnectEvent) : Nat :=
  (evs.filter fun e => match e with
    | ConnectEvent.acquireLock => true
    | _ => false).length

/-- C5: on every successful connect, the single `acquire_shutdown_lock`
call comes after every `subscribe` request: restricted to subscribe
requests and lock acquisitions, the connect trace is the subscribe list
followed by the one acquisition. -/
theorem subscriptions_precede_lock_acquisition (host : String) (port : Nat)
    (topicPfx : String) :
    subscribeOrAcquire (on_connect host port topicPfx) =
      (MQTT_TOPIC_SUFFIX_ACTION_MAPPING.map fun p =>
        ConnectEvent.subscribeTopic (topicPfx ++ "/" ++ p.1)) ++
      [ConnectEvent.acquireLock] ∧
    acquireCount (on_connect host port topicPfx) = 1 :=
  ⟨rfl, rfl⟩

/-- C6 counterexample: with topic prefix `systemctl/host`, the connect
trace subscribes exactly one topic — `systemctl/host/poweroff` — and in
particular never subscribes `systemctl/host/reboot`, so the claimed
four-entry minimum registry (poweroff, reboot, suspend,
lock-all-sessions) does not hold of this code base. -/
theorem four_entry_registry_counterexample :
    (subscribedTopics (on_connect "mqtt-broker.local" 1833 "systemctl/host")).length = 1 ∧
    "systemctl/host/reboot" ∉
      subscribedTopics (on_connect "mqtt-broker.local" 1833 "systemctl/host") ∧
    "systemctl/host/suspend" ∉
      subscribedTopics (on_connect "mqtt-broker.local" 1833 "systemctl/host") ∧
    "systemctl/host/lock-all-sessions" ∉
      subscribedTopics (on_connect "mqtt-broker.local" 1833 "systemctl/host") := by
  refine ⟨rfl, ?_, ?_, ?_⟩ <;> decide

/-- C6 (amended): on every successful connect the dispatcher subscribes
one topic per registry entry, and the registry of this code base consists
of exactly the poweroff entry, so exactly `<topic pfx>/poweroff` is
subscribed. -/
theorem one_topic_per_registry_entry (host : String) (port : Nat)
    (topicPfx : String) :
    subscribedTopics (on_connect host port topicPfx) =
      MQTT_TOPIC_SUFFIX_ACTION_MAPPING.map (fun p => topicPfx ++ "/" ++ p.1) ∧
    MQTT_TOPIC_SUFFIX_ACTION_MAPPING.map Prod.fst = ["poweroff"] :=
  ⟨rfl, rfl⟩

/-- C8 counterexample: at a concrete retained poweroff message, the
callback's log output has two records — the debug receipt record first —
so the info `ignoring retained message` record is not the sole output. -/
theorem retained_sole_output_counterexample :
    dispatchLogRecords (mqtt_message_callback poweroffDescriptor
        { topic := "system/command/poweroff", payload := [106, 117, 110, 107], retained := true }) =
      [(LogLevel.debug, "received topic=system/command/poweroff payload=b'junk'"),
       (LogLevel.info, "ignoring retained message")] ∧
    dispatchLogRecords (mqtt_message_callback poweroffDescriptor
        { topic := "system/command/poweroff", payload := [106, 117, 110, 107], retained := true }) ≠
      [(LogLevel.info, "ignoring retained message")] := by
  constructor
  · decide
  · decide

/-- C8 (amended): for every retained message the callback emits exactly
two log records and nothing else — the debug receipt record, then the
info `ignoring retained message` record as final output — and invokes no
action. -/
theorem retained_message_full_trace (d : ActionDescriptor)
    (msg : InboundMessage) (h : msg.retained = true) :
    mqtt_message_callback d msg =
      [DispatchEvent.logEvt LogLevel.debug
          ("received topic=" ++ msg.topic ++ " payload=" ++ pyBytesRepr msg.payload),
       DispatchEvent.logEvt LogLevel.info "ignoring retained message"] := by
  cases msg with
  | mk t p r =>
    cases r
    · simp at h
    · rfl

/-- Witness for the amended C8 at a concrete retained message. -/
theorem retained_message_full_trace_witness :
    ({ topic := "system/command/poweroff", payload := [106, 117, 110, 107], retained := true } :
        InboundMessage).retained = true ∧
    mqtt_message_callback poweroffDescriptor
        { topic := "system/command/poweroff", payload := [106, 117, 110, 107], retained := true } =
      [DispatchEvent.logEvt LogLevel.debug
          ("received topic=" ++ "system/command/poweroff" ++ " payload=" ++
            pyBytesRepr [106, 117, 110, 107]),
       DispatchEvent.logEvt LogLevel.info "ignoring retained message"] :=
  ⟨rfl, retained_message_full_trace poweroffDescriptor
      { topic := "system/command/poweroff", payload := [106, 117, 110, 107], retained := true } rfl⟩

/-- Python `int()` of an integer-valued rational is that integer. -/
theorem pyInt_intCast (n : Int) : pyInt (n : Rat) = n := by
  unfold pyInt
  rcases lt_or_le (n : Rat) 0 with hn | hn
  · rw [if_pos hn, Int.ceil_intCast]
  · rw [if_neg (not_lt.mpr hn), Int.floor_intCast]

/-- Rounding a value that is already a multiple of the ulp returns it
unchanged. -/
theorem roundNearestEven_eq_self (q : Rat) (ulpExp : Int) (n : Int)
    (hq : q = (n : Rat) * 2 ^ ulpExp) : roundNearestEven q ulpExp = q := by
  have hu : ((2 : Rat) ^ ulpExp) ≠ 0 := zpow_ne_zero _ two_ne_zero
  have hx : q / (2 : Rat) ^ ulpExp = (n : Rat) := by
    rw [hq, mul_div_cancel_right₀ _ hu]
  simp only [roundNearestEven, hx, Int.floor_intCast, sub_self]
  rw [if_pos (by norm_num : (0 : Rat) < 1 / 2)]
  exact hq.symm

/-- A value strictly between the midpoints around the multiple `n` of
the ulp rounds to that multiple (no tie can occur). -/
theorem roundNearestEven_eq_of_near (q : Rat) (ulpExp : Int) (n : Int)
    (hlo : ((n : Rat) - 1 / 2) * 2 ^ ulpExp < q)
    (hhi : q < ((n : Rat) + 1 / 2) * 2 ^ ulpExp) :
    roundNearestEven q ulpExp = (n : Rat) * 2 ^ ulpExp := by
  have hu : (0 : Rat) < 2 ^ ulpExp := zpow_pos (by norm_num) _
  have hlo' : (n : Rat) - 1 / 2 < q / 2 ^ ulpExp := (lt_div_iff₀ hu).mpr hlo
  have hhi' : q / 2 ^ ulpExp < (n : Rat) + 1 / 2 := (div_lt_iff₀ hu).mpr hhi
  rcases le_or_lt ((n : Rat)) (q / 2 ^ ulpExp) with hge | hlt
  · have hfl : Int.floor (q / 2 ^ ulpExp) = n :=
      Int.floor_eq_iff.mpr ⟨hge, by linarith⟩
    simp only [roundNearestEven, hfl]
    rw [if_pos (by linarith)]
  · have hfl : Int.floor (q / 2 ^ ulpExp) = n - 1 :=
      Int.floor_eq_iff.mpr ⟨by push_cast; linarith, by push_cast; linarith⟩
    simp only [roundNearestEven, hfl]
    rw [if_neg (by push_cast; linarith), if_pos (by push_cast; linarith)]
    push_cast
    ring_nf

/-- Determines `fl` on a positive value from its binade (fixing
`Int.log`) and a strict midpoint bracket around the resulting
significand. -/
theorem fl_eq_of_near (q : Rat) (e : Int) (n : Int)
    (h0 : 0 < q)
    (he_lo : (2 : Rat) ^ e ≤ q) (he_hi : q < (2 : Rat) ^ (e + 1))
    (hlo : ((n : Rat) - 1 / 2) * 2 ^ (e - 52) < q)
    (hhi : q < ((n : Rat) + 1 / 2) * 2 ^ (e - 52)) :
    fl q = (n : Rat) * 2 ^ (e - 52) := by
  have hlog : Int.log 2 q = e := by
    have h1 : e ≤ Int.log 2 q := (Int.zpow_le_iff_le_log (by norm_num) h0).mp he_lo
    have h2 : Int.log 2 q < e + 1 := (Int.lt_zpow_iff_log_lt (by norm_num) h0).mp he_hi
    omega
  unfold fl
  rw [if_neg (ne_of_gt h0), abs_of_pos h0, hlog]
  exact roundNearestEven_eq_of_near q _ n hlo hhi

/-- Every integer of magnitude below `2^53` is exactly representable in
binary64. -/
theorem fl_int (m : Int) (hm : |m| < 2 ^ 53) : fl (m : Rat) = m := by
  by_cases h0 : m = 0
  · subst h0; simp [fl]
  · have hne : ((m : Rat)) ≠ 0 := Int.cast_ne_zero.mpr h0
    have habs : (0 : Rat) < |(m : Rat)| := abs_pos.mpr hne
    have hlt : |(m : Rat)| < (2 : Rat) ^ (53 : Int) := by
      rw [← Int.cast_abs, show ((53 : Int)) = ((53 : Nat) : Int) from rfl, zpow_natCast]
      exact_mod_cast hm
    have he_lt : Int.log 2 |(m : Rat)| < 53 :=
      (Int.lt_zpow_iff_log_lt (by norm_num) habs).mp hlt
    unfold fl
    rw [if_neg hne]
    refine roundNearestEven_eq_self _ _ (m * 2 ^ (52 - Int.log 2 |(m : Rat)|).toNat) ?_
    have ht : (((52 - Int.log 2 |(m : Rat)|).toNat : Int)) = 52 - Int.log 2 |(m : Rat)| :=
      Int.toNat_of_nonneg (by omega)
    push_cast
    rw [mul_assoc, ← zpow_natCast (2 : Rat) (52 - Int.log 2 |(m : Rat)|).toNat, ht,
      ← zpow_add₀ (by norm_num : (2 : Rat) ≠ 0),
      show 52 - Int.log 2 |(m : Rat)| + (Int.log 2 |(m : Rat)| - 52) = 0 by ring,
      zpow_zero, mul_one]

/-- For a datetime on a whole second inside the float-exact range, the
binary64 evaluation of `int(t.timestamp() * 1e6)` recovers exactly the
microsecond count: the division yields the integer second count, which is
representable, and so is the product. -/
theorem timestamp_scaled_exact (t : PyDatetime) (k : Int)
    (hk : t.usecSinceEpoch = k * 1000000) (hb : |t.usecSinceEpoch| < 2 ^ 53) :
    pyInt (fl (t.timestamp * 1000000)) = t.usecSinceEpoch := by
  have hkb : |k| < 2 ^ 53 := by
    have h1 : |k| ≤ |k * 1000000| := by
      rw [abs_mul]
      exact le_mul_of_one_le_right (abs_nonneg k) (by norm_num)
    rw [← hk] at h1
    omega
  have hdiv : (t.usecSinceEpoch : Rat) / 1000000 = (k : Rat) := by
    rw [hk]
    push_cast
    rw [mul_div_cancel_right₀ _ (by norm_num : (1000000 : Rat) ≠ 0)]
  have h1 : t.timestamp = (k : Rat) := by
    unfold PyDatetime.timestamp
    rw [hdiv]
    exact fl_int k hkb
  have h2 : (k : Rat) * 1000000 = (t.usecSinceEpoch : Rat) := by
    rw [hk]
    push_cast
    ring
  rw [h1, h2, fl_int _ hb, pyInt_intCast]

/-- No event emitted by the inhibitor diagnostics is a `ScheduleShutdown`
call. -/
theorem diag_no_schedule_call (effLevel : Int)
    (inhibResp : Except DBusErrorResponse (List InhibitorEntry)) :
    (log_shutdown_inhibitors effLevel inhibResp).countP isScheduleCall = 0 := by
  refine List.countP_eq_zero.mpr ?_
  intro e he
  unfold log_shutdown_inhibitors at he
  split at he
  · simp at he
  · rcases List.mem_cons.mp he with rfl | he2
    · decide
    · cases inhibResp with
      | error exc =>
        simp only [List.mem_singleton] at he2
        subst he2
        simp [isScheduleCall]
      | ok inhibitors =>
        rcases List.mem_append.mp he2 with he3 | he3
        · obtain ⟨i, _, hi⟩ := List.mem_filterMap.mp he3
          split at hi
          · cases Option.some.inj hi
            simp [isScheduleCall]
          · exact absurd hi (by simp)
        · split at he3
          · simp at he3
          · simp only [List.mem_singleton] at he3
            subst he3
            simp [isScheduleCall]

/-- A log record is not a `ScheduleShutdown` call. -/
theorem isScheduleCall_logEvt (lvl : LogLevel) (msg : String) :
    isScheduleCall (SchedEvent.logEvt lvl msg) = false := rfl

/-- On an issued call, `isScheduleCall` compares the method name. -/
theorem isScheduleCall_dbusCall (m : MethodCall) :
    isScheduleCall (SchedEvent.dbusCall m) = (m.method == "ScheduleShutdown") := rfl

/-- The caught-error record is a log record, not a D-Bus call. -/
theorem isScheduleCall_error_log (action : String) (exc : DBusErrorResponse) :
    isScheduleCall (schedule_error_log action exc) = false := by
  unfold schedule_error_log
  split <;> rfl

/-- The caught-error record is an error-level record whose message starts
with `failed to schedule <action>`. -/
theorem schedule_error_log_names_action (action : String) (exc : DBusErrorResponse) :
    ∃ tail, schedule_error_log action exc =
      SchedEvent.logEvt LogLevel.error ("failed to schedule " ++ action ++ tail) := by
  unfold schedule_error_log
  split
  · exact ⟨": unauthorized; missing polkit authorization rules?", rfl⟩
  · exact ⟨": " ++ strOfExc exc, rfl⟩

/-- C7: whenever the host answers the `ScheduleShutdown` call with a
D-Bus error — the interactive-authorization-required one or any other —
`schedule_shutdown` returns normally (the exception is caught, not
propagated), issues the call exactly once (no retry), and emits an
error-level log record naming the action. -/
theorem schedule_shutdown_dbus_error_logged (action : String) (now : PyDatetime)
    (delay : PyTimedelta) (exc : DBusErrorResponse)
    (inhibResp : Except DBusErrorResponse (List InhibitorEntry)) (effLevel : Int)
    (h : action = "poweroff" ∨ action = "reboot") :
    ∃ evs, schedule_shutdown action now delay (Except.error exc) inhibResp effLevel =
        Except.ok evs ∧
      scheduleCallCount evs = 1 ∧
      ∃ tail, SchedEvent.logEvt LogLevel.error
          ("failed to schedule " ++ action ++ tail) ∈ evs := by
  unfold schedule_shutdown
  rw [if_pos h]
  refine ⟨SchedEvent.logEvt LogLevel.info
      ("scheduling " ++ action ++ " for " ++ strftimeStandIn (now.add delay)) ::
    SchedEvent.dbusCall (LoginManager_ScheduleShutdown action (now.add delay)) ::
    ([schedule_error_log action exc] ++ log_shutdown_inhibitors effLevel inhibResp),
    rfl, ?_, ?_⟩
  · simp [scheduleCallCount, List.countP_cons, List.countP_append,
      diag_no_schedule_call, isScheduleCall_error_log, isScheduleCall_logEvt,
      isScheduleCall_dbusCall, LoginManager_ScheduleShutdown]
  · obtain ⟨tail, htail⟩ := schedule_error_log_names_action action exc
    exact ⟨tail, by rw [← htail]; simp⟩

/-- Witness for C7: the poweroff action with the
interactive-authorization-required error response. -/
theorem schedule_shutdown_dbus_error_logged_witness :
    ("poweroff" = "poweroff" ∨ "poweroff" = "reboot") ∧
    (∃ evs, schedule_shutdown "poweroff" ⟨0⟩ ⟨0⟩
        (Except.error ⟨"org.freedesktop.DBus.Error.InteractiveAuthorizationRequired",
          ["Interactive authentication required."]⟩)
        (Except.ok []) 20 = Except.ok evs ∧
      scheduleCallCount evs = 1 ∧
      ∃ tail, SchedEvent.logEvt LogLevel.error
          ("failed to schedule " ++ "poweroff" ++ tail) ∈ evs) :=
  ⟨Or.inl rfl,
   schedule_shutdown_dbus_error_logged "poweroff" ⟨0⟩ ⟨0⟩
     ⟨"org.freedesktop.DBus.Error.InteractiveAuthorizationRequired",
       ["Interactive authentication required."]⟩
     (Except.ok []) 20 (Or.inl rfl)⟩

/-- C9: when the `ListInhibitors` diagnostic query fails with a D-Bus
error (and the logger level lets the query run at all), the diagnostics
helper logs the failure at warning level and returns normally — its
output is exactly the issued call and the warning record — and
`schedule_shutdown` still completes with a normal result. -/
theorem inhibitor_diagnostics_failure_recovered (exc : DBusErrorResponse)
    (effLevel : Int) (action : String) (now : PyDatetime) (delay : PyTimedelta)
    (callResp : Except DBusErrorResponse Unit)
    (h1 : effLevel ≤ 10) (h2 : action = "poweroff" ∨ action = "reboot") :
    log_shutdown_inhibitors effLevel (Except.error exc) =
      [SchedEvent.dbusCall LoginManager_ListInhibitors,
       SchedEvent.logEvt LogLevel.warning
         ("failed to fetch shutdown inhibitors: " ++ strOfExc exc)] ∧
    ∃ evs, schedule_shutdown action now delay callResp (Except.error exc) effLevel =
        Except.ok evs := by
  constructor
  · unfold log_shutdown_inhibitors
    rw [if_neg (not_lt.mpr h1)]
  · unfold schedule_shutdown
    rw [if_pos h2]
    exact ⟨_, rfl⟩

/-- Witness for C9: a concrete `ListInhibitors` failure at effective
level DEBUG during a reboot scheduling. -/
theorem inhibitor_diagnostics_failure_recovered_witness :
    ((10 : Int) ≤ 10 ∧ ("reboot" = "poweroff" ∨ "reboot" = "reboot")) ∧
    (log_shutdown_inhibitors 10
        (Except.error ⟨"org.freedesktop.DBus.Error.Failed", ["busy"]⟩) =
      [SchedEvent.dbusCall LoginManager_ListInhibitors,
       SchedEvent.logEvt LogLevel.warning
         ("failed to fetch shutdown inhibitors: " ++
           strOfExc ⟨"org.freedesktop.DBus.Error.Failed", ["busy"]⟩)] ∧
     ∃ evs, schedule_shutdown "reboot" ⟨0⟩ ⟨0⟩ (Except.ok ())
        (Except.error ⟨"org.freedesktop.DBus.Error.Failed", ["busy"]⟩) 10 =
        Except.ok evs) :=
  ⟨⟨le_refl 10, Or.inr rfl⟩,
   inhibitor_diagnostics_failure_recovered
     ⟨"org.freedesktop.DBus.Error.Failed", ["busy"]⟩ 10 "reboot" ⟨0⟩ ⟨0⟩
     (Except.ok ()) (le_refl 10) (Or.inr rfl)⟩

/-- C10 counterexample: at the target time 1073741824000002 µs after the
epoch (2004-01-10 13:37:04.000002 UTC; reached from now = 2^30 seconds
and a 2 µs delay), the binary64 evaluation of `int(t.timestamp() * 1e6)`
yields 1073741824000001 — one microsecond below the exact count, since
`t.timestamp()` rounds up to 0x1.0000000000008p+30 and the product rounds
to 1073741824000001.875 — so the issued message's body integer is not the
target time in exact microseconds since the epoch, refuting the claim as
stated. -/
theorem schedule_shutdown_usec_truncation_counterexample :
    PyDatetime.add ⟨1073741824000000⟩ ⟨2⟩ = (⟨1073741824000002⟩ : PyDatetime) ∧
    (∃ evs, schedule_shutdown "poweroff" ⟨1073741824000000⟩ ⟨2⟩
        (Except.ok ()) (Except.ok []) 20 = Except.ok evs ∧
      SchedEvent.dbusCall (LoginManager_ScheduleShutdown "poweroff"
        (PyDatetime.add ⟨1073741824000000⟩ ⟨2⟩)) ∈ evs) ∧
    LoginManager_ScheduleShutdown "poweroff" (⟨1073741824000002⟩ : PyDatetime) =
      { method := "ScheduleShutdown", signature := "st",
        body := [PyVal.str "poweroff", PyVal.int 1073741824000001] } ∧
    (1073741824000001 : Int) ≠ (⟨1073741824000002⟩ : PyDatetime).usecSinceEpoch := by
  refine ⟨by decide, ?_, ?_, by decide⟩
  · unfold schedule_shutdown
    rw [if_pos (Or.inl rfl)]
    exact ⟨_, rfl, by simp⟩
  · have hts : (⟨1073741824000002⟩ : PyDatetime).timestamp =
        562949953421313 / 524288 := by
      have h := fl_eq_of_near (((1073741824000002 : Int) : Rat) / 1000000) 30
        4503599627370504 (by norm_num) (by norm_num) (by norm_num) (by norm_num)
        (by norm_num)
      show fl (((1073741824000002 : Int) : Rat) / 1000000) = 562949953421313 / 524288
      rw [h]
      norm_num
    unfold LoginManager_ScheduleShutdown
    rw [hts]
    have hprod := fl_eq_of_near ((562949953421313 / 524288 : Rat) * 1000000) 49
      8589934592000015 (by norm_num) (by norm_num) (by norm_num) (by norm_num)
      (by norm_num)
    rw [hprod]
    have hval : ((8589934592000015 : Int) : Rat) * 2 ^ ((49 : Int) - 52) =
        (8589934592000015 : Rat) / 8 := by norm_num
    rw [hval]
    have hf : Int.floor ((8589934592000015 : Rat) / 8) = (1073741824000001 : Int) :=
      Int.floor_eq_iff.mpr (by norm_num)
    unfold pyInt
    rw [if_neg (by norm_num), hf]

/-- C10 (amended): for both actions and every delay, `schedule_shutdown`
targets `now + delay` and the issued `ScheduleShutdown` message carries
the body `(action, int(t.timestamp() * 1e6))` evaluated in binary64
floating point; whenever the target time falls on a whole second inside
the float-exact range (microsecond count below `2^53` in magnitude), both
float operations are exact and the body integer equals exactly the target
time in microseconds since the Unix epoch, while for some
microsecond-grain target times the binary64 evaluation is one microsecond
below the exact count. -/
theorem schedule_shutdown_usec_body (action : String) (now : PyDatetime)
    (delay : PyTimedelta) (callResp : Except DBusErrorResponse Unit)
    (inhibResp : Except DBusErrorResponse (List InhibitorEntry)) (effLevel : Int)
    (h : action = "poweroff" ∨ action = "reboot")
    (k : Int) (hk : (now.add delay).usecSinceEpoch = k * 1000000)
    (hb : |(now.add delay).usecSinceEpoch| < 2 ^ 53) :
    ∃ evs, schedule_shutdown action now delay callResp inhibResp effLevel =
        Except.ok evs ∧
      SchedEvent.dbusCall (LoginManager_ScheduleShutdown action (now.add delay)) ∈ evs ∧
      LoginManager_ScheduleShutdown action (now.add delay) =
        { method := "ScheduleShutdown", signature := "st",
          body := [PyVal.str action,
                   PyVal.int ((now.add delay).usecSinceEpoch)] } := by
  unfold schedule_shutdown
  rw [if_pos h]
  refine ⟨_, rfl, by simp, ?_⟩
  unfold LoginManager_ScheduleShutdown
  rw [timestamp_scaled_exact (now.add delay) k hk hb]

/-- Witness for the amended C10: scheduling a reboot for epoch-second
1600000000 plus a ten-minute delay, a whole-second target time. -/
theorem schedule_shutdown_usec_body_witness :
    (("reboot" = "poweroff" ∨ "reboot" = "reboot") ∧
      (PyDatetime.add ⟨1600000000000000⟩ ⟨600000000⟩).usecSinceEpoch =
        1600000600 * 1000000 ∧
      |(PyDatetime.add ⟨1600000000000000⟩ ⟨600000000⟩).usecSinceEpoch| < 2 ^ 53) ∧
    (∃ evs, schedule_shutdown "reboot" ⟨1600000000000000⟩ ⟨600000000⟩
        (Except.ok ()) (Except.ok []) 20 = Except.ok evs ∧
      SchedEvent.dbusCall (LoginManager_ScheduleShutdown "reboot"
        (PyDatetime.add ⟨1600000000000000⟩ ⟨600000000⟩)) ∈ evs ∧
      LoginManager_ScheduleShutdown "reboot"
          (PyDatetime.add ⟨1600000000000000⟩ ⟨600000000⟩) =
        { method := "ScheduleShutdown", signature := "st",
          body := [PyVal.str "reboot",
                   PyVal.int ((PyDatetime.add ⟨1600000000000000⟩ ⟨600000000⟩).usecSinceEpoch)] }) :=
  ⟨⟨Or.inr rfl, by decide, by decide⟩,
   schedule_shutdown_usec_body "reboot" ⟨1600000000000000⟩ ⟨600000000⟩
     (Except.ok ()) (Except.ok []) 20 (Or.inr rfl) 1600000600 (by decide) (by decide)⟩

end SystemctlMqtt
